import Mathlib

/-!
Verification development for `projects/at86rf215/01bsp_radio/01bsp_radio.c`
(OpenWSN BSP radio exerciser).

The program is a duty-cycled radio test: a two-state (TX/RX) state machine
driven by three event flags (start-of-frame, end-of-frame, timer), drained by
a dispatch loop in a fixed priority order.  We embed the application state
(`app_vars_t`, `app_dbg_t`), the flag constants, the per-flag dispatch blocks
of `mote_main`'s inner loop, and the notification callbacks.  Driver-facade
calls (radio, LEDs, bsp timer) have no semantics of their own in the core; we
record them as an action trace.
-/

namespace BspRadio

/-- Modelled from the spec: `LENGTH_CRC` is defined by the platform radio
header, which is not part of the sources here.  The source comment on the
`LENGTH_PACKET` define says "maximum length is 2047 bytes", fixing
`2043 + LENGTH_CRC = 2047`. -/
def LENGTH_CRC : Nat := 4

/-- `#define LENGTH_PACKET 2043+LENGTH_CRC` — maximum length is 2047 bytes. -/
def LENGTH_PACKET : Nat := 2043 + LENGTH_CRC

/-- `#define CHANNEL 0` -/
def CHANNEL : Nat := 0

/-- `#define CHANNEL_SPACING 800` (kHz) -/
def CHANNEL_SPACING : Nat := 800

/-- `#define FREQUENCY_0 9028000` -/
def FREQUENCY_0 : Nat := 9028000

/-- `#define TIMER_PERIOD 0xffff` -/
def TIMER_PERIOD : Nat := 0xffff

/-- `#define ID 0x99` — byte sent in the packets. -/
def ID : Nat := 0x99

/-- `APP_FLAG_START_FRAME = 0x01` -/
def APP_FLAG_START_FRAME : Nat := 0x01

/-- `APP_FLAG_END_FRAME = 0x02` -/
def APP_FLAG_END_FRAME : Nat := 0x02

/-- `APP_FLAG_TIMER = 0x04` -/
def APP_FLAG_TIMER : Nat := 0x04

/-- `app_state_t`: `APP_STATE_TX = 0x01`, `APP_STATE_RX = 0x02`. -/
inductive app_state_t where
  | TX
  | RX
deriving DecidableEq, Repr

/-- `app_dbg_t`: five `uint8_t` debug counters (values kept below 256 by the
`% 256` in the callbacks). -/
structure app_dbg_t where
  num_radioTimerOverflows : Nat
  num_radioTimerCompare : Nat
  num_startFrame : Nat
  num_endFrame : Nat
  num_timer : Nat
deriving DecidableEq, Repr

/-- `app_vars_t`: `flags` is a `uint8_t` bitmask, `packet` a
`uint8_t[LENGTH_PACKET]` buffer (here a byte list), `packet_len` a
`uint16_t`.  The `rxpk_*` fields are zeroed at startup and never written
elsewhere in this program. -/
structure app_vars_t where
  flags : Nat
  state : app_state_t
  packet : List Nat
  packet_len : Nat
  rxpk_rssi : Int
  rxpk_lqi : Nat
  rxpk_crc : Bool
deriving DecidableEq, Repr

/-- Calls the core makes into the driver facade (radio, LEDs, bsp timer),
recorded as a trace; their internals are external collaborators. -/
inductive Action where
  | board_sleep
  | leds_error_on
  | leds_error_off
  | leds_sync_on
  | leds_sync_off
  | radio_rfOn
  | radio_rfOff
  | radio_setFrequency (spacing f0 ch : Nat)
  | radio_rxEnable
  | radio_getReceivedFrame
  | radio_loadPacket (pkt : List Nat) (len : Nat)
  | radio_txEnable
  | radio_txNow
  | bsp_timer_scheduleIn (ticks : Nat)
deriving DecidableEq, Repr

/-- The three flag kinds of the `enum` at the top of the file. -/
inductive FlagKind where
  | START_FRAME
  | END_FRAME
  | TIMER
deriving DecidableEq, Repr

/-- The bit value of each flag kind. -/
def flagBit : FlagKind → Nat
  | .START_FRAME => APP_FLAG_START_FRAME
  | .END_FRAME => APP_FLAG_END_FRAME
  | .TIMER => APP_FLAG_TIMER

/-- `app_vars.flags &= ~bit` on a `uint8_t`: the complement of `bit`
truncated to 8 bits is `0xFF ^^^ bit`. -/
def clearFlag (f bit : Nat) : Nat := f &&& (0xFF ^^^ bit)

/-- Modelled from the spec: `radio_getReceivedFrame(app_vars.packet)` is a
driver-facade call (`fetchReceivedFrame(intoBuffer)`) whose implementation is
not part of the sources here.  Per the spec it writes the completed inbound
frame into the front of the buffer, at most the buffer's capacity; bytes past
the fetched length keep their previous contents. -/
def radio_getReceivedFrame (buf rx : List Nat) : List Nat :=
  rx.take LENGTH_PACKET ++ buf.drop (rx.take LENGTH_PACKET).length

/-- The number of bytes the modelled fetch writes into the buffer. -/
def fetchedLen (rx : List Nat) : Nat := min rx.length LENGTH_PACKET

/-! ### The packet-fill loop, as written

Both at startup (lines 99–101) and in the timer handler (lines 201–203) the
source fills the packet with

    for (i=0;i<app_vars.packet_len;i++) { app_vars.packet[i] = ID; }

where `i` is declared `uint8_t` (line 83) and `app_vars.packet_len` has just
been set to `sizeof(app_vars.packet) = LENGTH_PACKET = 2047`.  One iteration
writes `ID` at index `i` and increments `i` with wrap-around modulo 256. -/

/-- One iteration of the fill loop as written: state is `(i, packet)`;
the body stores `ID` at index `i`, then `i++` wraps modulo 256 (`uint8_t`). -/
def fillStep (st : Nat × List Nat) : Nat × List Nat :=
  ((st.1 + 1) % 256, st.2.set st.1 ID)

/-- The loop guard `i < app_vars.packet_len` (with `packet_len` equal to
`LENGTH_PACKET` at both fill sites). -/
def fillGuard (st : Nat × List Nat) : Bool := st.1 < LENGTH_PACKET

/-- The fill state reached after `n` iterations of the startup fill loop
(lines 99–101): `i` starts at 0 and the buffer holds the zeroes written by
`memset(&app_vars,0,sizeof(app_vars_t))`. -/
def startupFill (n : Nat) : Nat × List Nat :=
  fillStep^[n] (0, List.replicate LENGTH_PACKET 0)

/-- What the fill loop is documented to produce (file header: the node sends
"a packet containing LENGTH_PACKET bytes set to ID").  The loop as written
never produces it: it never terminates and only ever writes bytes 0–255
(proved in the C1/C2/C3/C6 theorems via `fillStep`/`timerRxFill`).  This
value is used only by the counterfactually completed RX branch of
`stepTimer` below. -/
def fillPacketIntent : List Nat := List.replicate LENGTH_PACKET ID

/-- Faithful model of the `APP_FLAG_TIMER` handler's RECEIVING branch as the
source actually executes it (lines 195–203): after `radio_rfOff()` (a driver
call that does not touch `app_vars`) and
`app_vars.packet_len = sizeof(app_vars.packet)`, the handler sits in the
fill loop.  `timerRxFill s n` is the pair (loop index `i`, application
variables) after `n` iterations of that loop; one iteration writes `ID` at
index `i` and wraps `i` modulo 256 (`uint8_t`).  The statements at lines
206–214 (`radio_loadPacket`, `radio_txEnable`, `radio_txNow`,
`app_vars.state = APP_STATE_TX`, the flag clear) come only after the loop. -/
def timerRxFill (s : app_vars_t) : Nat → Nat × app_vars_t
  | 0 => (0, { s with packet_len := LENGTH_PACKET })
  | n + 1 =>
      let r := timerRxFill s n
      ((r.1 + 1) % 256, { r.2 with packet := r.2.packet.set r.1 ID })

/-! ### The three dispatch blocks of `mote_main`'s inner loop

Each block is `if (app_vars.flags & BIT) { handle; app_vars.flags &= ~BIT; }`.
Each returns the new state, the trace of driver calls, and the list of flag
kinds whose handler body ran (an instrumentation of the control flow). -/

/-- Lines 131–151: `APP_FLAG_START_FRAME` block.  RX: `leds_error_on()`;
TX: `leds_sync_on()`; then clear the flag. -/
def stepStartFrame (s : app_vars_t) : app_vars_t × List Action × List FlagKind :=
  if s.flags &&& APP_FLAG_START_FRAME ≠ 0 then
    let acts : List Action :=
      match s.state with
      | .RX => [Action.leds_error_on]
      | .TX => [Action.leds_sync_on]
    ({ s with flags := clearFlag s.flags APP_FLAG_START_FRAME }, acts, [FlagKind.START_FRAME])
  else (s, [], [])

/-- Lines 156–187: `APP_FLAG_END_FRAME` block.  RX: reset `packet_len` to
`sizeof(app_vars.packet)`, fetch the received frame, `leds_error_off()`;
TX: `radio_rxEnable()`, switch state to RX, `leds_sync_off()`; then clear
the flag. -/
def stepEndFrame (rx : List Nat) (s : app_vars_t) : app_vars_t × List Action × List FlagKind :=
  if s.flags &&& APP_FLAG_END_FRAME ≠ 0 then
    match s.state with
    | .RX =>
        ({ s with
            packet_len := LENGTH_PACKET,
            packet := radio_getReceivedFrame s.packet rx,
            flags := clearFlag s.flags APP_FLAG_END_FRAME },
          [Action.radio_getReceivedFrame, Action.leds_error_off], [FlagKind.END_FRAME])
    | .TX =>
        ({ s with
            state := .RX,
            flags := clearFlag s.flags APP_FLAG_END_FRAME },
          [Action.radio_rxEnable, Action.leds_sync_off], [FlagKind.END_FRAME])
  else (s, [], [])

/-- Lines 192–215: `APP_FLAG_TIMER` block.  TX: nothing but the flag clear
(faithful).  RX: as written the source hangs forever in the fill loop
(`timerRxFill`; divergence proved in the C1/C2/C3 theorems), so lines
206–214 are unreachable; this definition instead completes the RX branch
with the loop's documented intended result (`fillPacketIntent`,
`radio_loadPacket`, `radio_txEnable()`, `radio_txNow()`, state TX, flag
clear).  The TX-path theorem (C4) uses only the faithful branch, and the
bit-preservation (C8) and `packet_len` (C10) theorems hold whether the RX
branch completes as intended or hangs, since during the hang the flag word
and `packet_len` are simply untouched. -/
def stepTimer (s : app_vars_t) : app_vars_t × List Action × List FlagKind :=
  if s.flags &&& APP_FLAG_TIMER ≠ 0 then
    if s.state = .RX then
      ({ s with
          packet_len := LENGTH_PACKET,
          packet := fillPacketIntent,
          state := .TX,
          flags := clearFlag s.flags APP_FLAG_TIMER },
        [Action.radio_rfOff, Action.radio_loadPacket fillPacketIntent LENGTH_PACKET,
          Action.radio_txEnable, Action.radio_txNow], [FlagKind.TIMER])
    else
      ({ s with flags := clearFlag s.flags APP_FLAG_TIMER }, [], [FlagKind.TIMER])
  else (s, [], [])

/-- The dispatch block for one flag kind. -/
def stepOf (k : FlagKind) (rx : List Nat) (s : app_vars_t) :
    app_vars_t × List Action × List FlagKind :=
  match k with
  | .START_FRAME => stepStartFrame s
  | .END_FRAME => stepEndFrame rx s
  | .TIMER => stepTimer s

/-- One pass of the inner drain loop (lines 126–216): the three blocks in
priority order START_FRAME, END_FRAME, TIMER. -/
def dispatchPass (rx : List Nat) (s : app_vars_t) :
    app_vars_t × List Action × List FlagKind :=
  let r1 := stepStartFrame s
  let r2 := stepEndFrame rx r1.1
  let r3 := stepTimer r2.1
  (r3.1, r1.2.1 ++ r2.2.1 ++ r3.2.1, r1.2.2 ++ r2.2.2 ++ r3.2.2)

/-! ### Notification callbacks (interrupt context)

Each callback acts on the pair `(app_vars, app_dbg)` and may call back into
the driver facade.  The `uint8_t` debug counters increment modulo 256. -/

/-- `cb_radioTimerOverflows`: `app_dbg.num_radioTimerOverflows++`. -/
def cb_radioTimerOverflows (p : app_vars_t × app_dbg_t) :
    (app_vars_t × app_dbg_t) × List Action :=
  ((p.1, { p.2 with num_radioTimerOverflows := (p.2.num_radioTimerOverflows + 1) % 256 }), [])

/-- `cb_radioTimerCompare`: `app_dbg.num_radioTimerCompare++`. -/
def cb_radioTimerCompare (p : app_vars_t × app_dbg_t) :
    (app_vars_t × app_dbg_t) × List Action :=
  ((p.1, { p.2 with num_radioTimerCompare := (p.2.num_radioTimerCompare + 1) % 256 }), [])

/-- `cb_startFrame(timestamp)`: `app_vars.flags |= APP_FLAG_START_FRAME;
app_dbg.num_startFrame++`. -/
def cb_startFrame (timestamp : Nat) (p : app_vars_t × app_dbg_t) :
    (app_vars_t × app_dbg_t) × List Action :=
  (({ p.1 with flags := p.1.flags ||| APP_FLAG_START_FRAME },
    { p.2 with num_startFrame := (p.2.num_startFrame + 1) % 256 }), [])

/-- `cb_endFrame(timestamp)`: `app_vars.flags |= APP_FLAG_END_FRAME;
app_dbg.num_endFrame++`. -/
def cb_endFrame (timestamp : Nat) (p : app_vars_t × app_dbg_t) :
    (app_vars_t × app_dbg_t) × List Action :=
  (({ p.1 with flags := p.1.flags ||| APP_FLAG_END_FRAME },
    { p.2 with num_endFrame := (p.2.num_endFrame + 1) % 256 }), [])

/-- `cb_timer()`: `app_vars.flags |= APP_FLAG_TIMER; app_dbg.num_timer++;
bsp_timer_scheduleIn(TIMER_PERIOD)`. -/
def cb_timer (p : app_vars_t × app_dbg_t) :
    (app_vars_t × app_dbg_t) × List Action :=
  (({ p.1 with flags := p.1.flags ||| APP_FLAG_TIMER },
    { p.2 with num_timer := (p.2.num_timer + 1) % 256 }),
    [Action.bsp_timer_scheduleIn TIMER_PERIOD])

/-! ### Fine-grained model of the flag clear (for the atomicity claim)

The C statement `app_vars.flags &= ~BIT;` is a read-modify-write: read
`flags` into a register, compute, write the register back.  An
interrupt-context callback may run between the read and the write.  The
source contains no interrupt masking or atomic operation around this
statement. -/

/-- A micro-step of the read-modify-write clear interleaved with interrupt
raises: `readFlags` loads the shared word into the register, `irqRaise r`
is an interrupt OR-ing `r` into the shared word, `writeClear bit` stores
the register AND `~bit` back to the shared word. -/
inductive MicroStep where
  | readFlags
  | irqRaise (r : Nat)
  | writeClear (bit : Nat)
deriving DecidableEq, Repr

/-- Shared flags word in memory plus the loop's register. -/
structure RmwState where
  mem : Nat
  reg : Nat
deriving DecidableEq, Repr

/-- Execute one micro-step. -/
def microExec (st : RmwState) : MicroStep → RmwState
  | .readFlags => { st with reg := st.mem }
  | .irqRaise r => { st with mem := st.mem ||| r }
  | .writeClear bit => { st with mem := clearFlag st.reg bit }

/-- Execute a schedule of micro-steps. -/
def runMicro (steps : List MicroStep) (st : RmwState) : RmwState :=
  steps.foldl microExec st

/-! ### Concrete states used by the witness theorems -/

/-- Concrete state: TRANSMITTING with only the timer flag set. -/
def c4s : app_vars_t :=
  { flags := APP_FLAG_TIMER, state := .TX, packet := [1, 2], packet_len := 5,
    rxpk_rssi := 0, rxpk_lqi := 0, rxpk_crc := false }

/-- Concrete state: RECEIVING with only the end-of-frame flag set and a
full-capacity buffer. -/
def c5s : app_vars_t :=
  { flags := APP_FLAG_END_FRAME, state := .RX,
    packet := List.replicate LENGTH_PACKET 0, packet_len := LENGTH_PACKET,
    rxpk_rssi := 0, rxpk_lqi := 0, rxpk_crc := false }

/-- Concrete state: RECEIVING with only the end-of-frame flag set. -/
def c8s : app_vars_t :=
  { flags := APP_FLAG_END_FRAME, state := .RX, packet := [], packet_len := 0,
    rxpk_rssi := 0, rxpk_lqi := 0, rxpk_crc := false }

/-- Zeroed application state (after `memset`, with state taken as RX). -/
def c9v0 : app_vars_t :=
  { flags := 0, state := .RX, packet := [], packet_len := 0,
    rxpk_rssi := 0, rxpk_lqi := 0, rxpk_crc := false }

/-- Zeroed debug counters (after `memset`). -/
def c9d0 : app_dbg_t :=
  { num_radioTimerOverflows := 0, num_radioTimerCompare := 0,
    num_startFrame := 0, num_endFrame := 0, num_timer := 0 }

/-- The application state after `n` timer notifications from the zeroed
startup state. -/
def c9iter (n : Nat) : app_vars_t × app_dbg_t :=
  (fun p => (cb_timer p).1)^[n] (c9v0, c9d0)

/-- Concrete state: RECEIVING, all three flags set, declared length at
full capacity. -/
def c10s : app_vars_t :=
  { flags := 7, state := .RX, packet := [], packet_len := LENGTH_PACKET,
    rxpk_rssi := 0, rxpk_lqi := 0, rxpk_crc := false }

/-! ## Helper lemmas -/

/-- The `uint8_t` loop index of the fill loop after `n` iterations: it wraps
modulo 256. -/
theorem fillStep_iterate_fst (buf : List Nat) :
    ∀ n : Nat, (fillStep^[n] (0, buf)).1 = n % 256 := by
  intro n
  induction n with
  | zero => rfl
  | succ n ih =>
      rw [Function.iterate_succ_apply']
      show ((fillStep^[n] (0, buf)).1 + 1) % 256 = (n + 1) % 256
      rw [ih]
      omega

/-- Clearing one flag bit leaves any bit of the low byte that is not in the
cleared bit unchanged. -/
theorem clearFlag_and_other {f b j : Nat} (h : (0xFF ^^^ b) &&& j = j) :
    clearFlag f b &&& j = f &&& j := by
  rw [clearFlag, Nat.and_assoc, h]

/-- The loop index of the TIMER-handler fill loop after `n` iterations: it
wraps modulo 256. -/
theorem timerRxFill_fst (s : app_vars_t) :
    ∀ n : Nat, (timerRxFill s n).1 = n % 256 := by
  intro n
  induction n with
  | zero => rfl
  | succ n ih =>
      show ((timerRxFill s n).1 + 1) % 256 = (n + 1) % 256
      rw [ih]
      omega

/-- The declared buffer length is `LENGTH_PACKET` throughout the
TIMER-handler fill loop (set at line 200, never written by the loop body). -/
theorem timerRxFill_packet_len (s : app_vars_t) :
    ∀ n : Nat, (timerRxFill s n).2.packet_len = LENGTH_PACKET := by
  intro n
  induction n with
  | zero => rfl
  | succ n ih => exact ih

/-- The mode is untouched throughout the TIMER-handler fill loop (the
assignment `app_vars.state = APP_STATE_TX` is at line 210, after the
loop). -/
theorem timerRxFill_state (s : app_vars_t) :
    ∀ n : Nat, (timerRxFill s n).2.state = s.state := by
  intro n
  induction n with
  | zero => rfl
  | succ n ih => exact ih

/-- The flag word is untouched throughout the TIMER-handler fill loop (the
clear `app_vars.flags &= ~APP_FLAG_TIMER` is at line 214, after the
loop). -/
theorem timerRxFill_flags (s : app_vars_t) :
    ∀ n : Nat, (timerRxFill s n).2.flags = s.flags := by
  intro n
  induction n with
  | zero => rfl
  | succ n ih => exact ih

/-- The timer debug counter after `n` timer notifications from the zeroed
state: it counts modulo 256. -/
theorem c9iter_num_timer : ∀ n : Nat, (c9iter n).2.num_timer = n % 256 := by
  intro n
  induction n with
  | zero => rfl
  | succ n ih =>
      simp only [c9iter] at ih ⊢
      rw [Function.iterate_succ_apply']
      show ((((fun p => (cb_timer p).1))^[n] (c9v0, c9d0)).2.num_timer + 1) % 256
        = (n + 1) % 256
      rw [ih]
      omega

/-! ## Claim theorems -/

/-- C2: the claim says one dispatch pass starting in RECEIVING with the timer
flag set fills every byte of the frame buffer and ends TRANSMITTING.  The
code cannot do this: the fill loop's guard `i < app_vars.packet_len`
(`fillGuard`) is still true after every number of iterations, for every
initial buffer, because the `uint8_t` index wraps modulo 256 below
`packet_len = LENGTH_PACKET = 2047` — the loop never exits, so the handler
never reaches `radio_loadPacket`/`radio_txNow` nor
`app_vars.state = APP_STATE_TX`. -/
theorem C2_timer_fill_loop_never_exits :
    ∀ (n : Nat) (buf : List Nat), fillGuard (fillStep^[n] (0, buf)) = true := by
  intro n buf
  have h := fillStep_iterate_fst buf n
  simp only [fillGuard, h, decide_eq_true_eq, LENGTH_PACKET, LENGTH_CRC]
  omega

/-- C6: the claim says startup establishes the prepared buffer, scheduled
timer, powered radio, RECEIVING mode and pre-set timer flag.  Startup never
gets there: its packet-prepare loop (lines 99–101) runs before all of those
steps, its guard is still true after every number of iterations, and e.g.
byte 2046 of the buffer still holds the `memset` zero, never `ID`, after any
number of iterations — startup hangs in the fill loop. -/
theorem C6_startup_fill_hangs :
    ∀ n : Nat, fillGuard (startupFill n) = true ∧
      (startupFill n).2[2046]? = some (0 : Nat) := by
  intro n
  constructor
  · have h := fillStep_iterate_fst (List.replicate LENGTH_PACKET 0) n
    simp only [startupFill, fillGuard, decide_eq_true_eq]
    rw [h]
    simp only [LENGTH_PACKET, LENGTH_CRC]
    omega
  · induction n with
    | zero =>
        show (List.replicate LENGTH_PACKET 0)[2046]? = some 0
        rw [List.getElem?_replicate_of_lt]
        simp [LENGTH_PACKET, LENGTH_CRC]
    | succ n ih =>
        rw [startupFill, Function.iterate_succ_apply']
        show ((fillStep^[n] (0, List.replicate LENGTH_PACKET 0)).2.set
          (fillStep^[n] (0, List.replicate LENGTH_PACKET 0)).1 ID)[2046]? = some 0
        rw [List.getElem?_set_ne, ← startupFill, ih]
        rw [fillStep_iterate_fst]
        omega

/-- C7: the claim says a flag bit raised by a notification between the
dispatch loop's read and write of the same flags word is never lost.  The C
statement `app_vars.flags &= ~APP_FLAG_END_FRAME` is a plain
read-modify-write with no interrupt masking or atomic operation: in the
interleaving read / `cb_timer`-raise / write starting from
`flags = APP_FLAG_END_FRAME`, the final word is 0 — the raised timer bit is
lost — whereas the same raise outside the read-write window survives. -/
theorem C7_rmw_clear_loses_concurrent_raise :
    (runMicro [MicroStep.readFlags, MicroStep.irqRaise APP_FLAG_TIMER,
        MicroStep.writeClear APP_FLAG_END_FRAME]
      { mem := APP_FLAG_END_FRAME, reg := 0 }).mem = 0
    ∧ (runMicro [MicroStep.readFlags, MicroStep.writeClear APP_FLAG_END_FRAME,
        MicroStep.irqRaise APP_FLAG_TIMER]
      { mem := APP_FLAG_END_FRAME, reg := 0 }).mem = APP_FLAG_TIMER := by
  constructor <;> decide

/-- C4: handling the timer flag while the mode is TRANSMITTING changes
neither the mode, the packet buffer, nor the declared length, and issues no
driver call; the only effect is that the timer flag bit is cleared. -/
theorem C4_timer_while_tx_only_clears_flag (s : app_vars_t)
    (hst : s.state = app_state_t.TX) (hb : s.flags &&& APP_FLAG_TIMER ≠ 0) :
    stepTimer s =
      ({ s with flags := clearFlag s.flags APP_FLAG_TIMER }, [], [FlagKind.TIMER]) := by
  simp [stepTimer, hb, hst]

/-- Witness for C4 at the concrete state `c4s` (TRANSMITTING, timer flag
set): the pass only clears the flag. -/
theorem C4_witness :
    c4s.state = app_state_t.TX ∧ c4s.flags &&& APP_FLAG_TIMER ≠ 0 ∧
      stepTimer c4s =
        ({ c4s with flags := 0 }, [], [FlagKind.TIMER]) := by
  refine ⟨rfl, by decide, ?_⟩
  rw [C4_timer_while_tx_only_clears_flag c4s rfl (by decide)]
  rfl

/-- C1: the claim says TIMER while RECEIVING switches the mode to
TRANSMITTING, so the mode alternates strictly RECEIVING, TRANSMITTING, ….
The source never performs that switch: in the TIMER handler's RECEIVING
branch the mode still equals the entry mode after every number of fill-loop
iterations, and the loop guard `i < app_vars.packet_len` still holds, so
line 210 (`app_vars.state = APP_STATE_TX`) is never reached and the claimed
RECEIVING→TRANSMITTING transition — and with it the strict alternation —
never occurs. -/
theorem C1_timer_rx_never_reaches_tx :
    ∀ (s : app_vars_t) (n : Nat),
      (timerRxFill s n).2.state = s.state ∧
      (timerRxFill s n).1 < (timerRxFill s n).2.packet_len := by
  intro s n
  refine ⟨timerRxFill_state s n, ?_⟩
  rw [timerRxFill_fst, timerRxFill_packet_len]
  simp only [LENGTH_PACKET, LENGTH_CRC]
  omega

/-- C5: handling the end-of-frame flag while RECEIVING resets the declared
buffer length to full capacity, fetches the inbound frame into the buffer
(at most the capacity, leaving the buffer at capacity), clears the receive
busy indicator (`leds_error_off`), and leaves the mode RECEIVING. -/
theorem C5_endframe_while_rx (rx : List Nat) (s : app_vars_t)
    (hb : s.flags &&& APP_FLAG_END_FRAME ≠ 0) (hst : s.state = app_state_t.RX)
    (hlen : s.packet.length = LENGTH_PACKET) :
    stepEndFrame rx s =
      ({ s with
          packet_len := LENGTH_PACKET,
          packet := radio_getReceivedFrame s.packet rx,
          flags := clearFlag s.flags APP_FLAG_END_FRAME },
        [Action.radio_getReceivedFrame, Action.leds_error_off], [FlagKind.END_FRAME])
    ∧ (stepEndFrame rx s).1.packet_len = LENGTH_PACKET
    ∧ (stepEndFrame rx s).1.state = app_state_t.RX
    ∧ (stepEndFrame rx s).1.packet.length = LENGTH_PACKET
    ∧ fetchedLen rx ≤ LENGTH_PACKET := by
  have hstep : stepEndFrame rx s =
      ({ s with
          packet_len := LENGTH_PACKET,
          packet := radio_getReceivedFrame s.packet rx,
          flags := clearFlag s.flags APP_FLAG_END_FRAME },
        [Action.radio_getReceivedFrame, Action.leds_error_off], [FlagKind.END_FRAME]) := by
    obtain ⟨f, st, pkt, plen, a, b, c⟩ := s
    simp only at hst
    subst hst
    simp [stepEndFrame, hb]
  refine ⟨hstep, ?_, ?_, ?_, Nat.min_le_right _ _⟩
  · rw [hstep]
  · rw [hstep]; exact hst
  · rw [hstep]
    show (radio_getReceivedFrame s.packet rx).length = LENGTH_PACKET
    simp [radio_getReceivedFrame, List.length_take, List.length_drop, hlen]

/-- Witness for C5 at the concrete state `c5s` (RECEIVING, end-of-frame flag
set, full-capacity buffer) with received frame `[7, 7, 7]`. -/
theorem C5_witness :
    c5s.flags &&& APP_FLAG_END_FRAME ≠ 0 ∧
      (stepEndFrame [7, 7, 7] c5s).1.state = app_state_t.RX ∧
      (stepEndFrame [7, 7, 7] c5s).1.packet_len = LENGTH_PACKET := by
  have h := C5_endframe_while_rx [7, 7, 7] c5s (by decide) rfl
    (by simp [c5s, List.length_replicate])
  exact ⟨by decide, h.2.2.1, h.2.1⟩

/-- C8: running the dispatch block for a flag kind whose bit is clear is a
no-op on the entire state (and emits nothing), and clearing one flag kind
leaves the bit of every other flag kind unchanged. -/
theorem C8_flag_handling_algebra (rx : List Nat) (s : app_vars_t) (k : FlagKind) :
    (s.flags &&& flagBit k = 0 → stepOf k rx s = (s, [], []))
    ∧ ∀ j : FlagKind, j ≠ k →
        (stepOf k rx s).1.flags &&& flagBit j = s.flags &&& flagBit j := by
  obtain ⟨f, st, pkt, plen, a, b, c⟩ := s
  constructor
  · intro h
    cases k <;> cases st <;>
      simp_all [stepOf, stepStartFrame, stepEndFrame, stepTimer, flagBit]
  · intro j hj
    cases k <;> cases j <;> (try exact absurd rfl hj) <;> cases st <;>
      simp only [stepOf, stepStartFrame, stepEndFrame, stepTimer, flagBit] <;>
      split <;>
      first
        | rfl
        | exact clearFlag_and_other (by decide)

/-- Witness for C8 at the concrete state `c8s` (only the end-of-frame bit
set): the timer block is a no-op there, and the end-of-frame block leaves
the timer bit unchanged. -/
theorem C8_witness :
    (c8s.flags &&& flagBit FlagKind.TIMER = 0 ∧
      stepOf FlagKind.TIMER [] c8s = (c8s, [], []))
    ∧ (stepOf FlagKind.END_FRAME [] c8s).1.flags &&& flagBit FlagKind.TIMER =
        c8s.flags &&& flagBit FlagKind.TIMER := by
  exact ⟨⟨by decide, (C8_flag_handling_algebra [] c8s FlagKind.TIMER).1 (by decide)⟩,
    (C8_flag_handling_algebra [] c8s FlagKind.END_FRAME).2 FlagKind.TIMER (by decide)⟩

/-- C9 counterexample: the claim says no debug counter ever decreases.  The
counters are `uint8_t`: after 255 timer notifications `num_timer` is 255,
and the 256th notification wraps it to 0 — a decrease. -/
theorem C9_counterexample_uint8_wrap :
    (c9iter 255).2.num_timer = 255 ∧ (c9iter 256).2.num_timer = 0 := by
  constructor <;> rw [c9iter_num_timer]

/-- C9 (amended): each notification handler increments exactly its own
`uint8_t` counter by one modulo 256 (so the count wraps from 255 to 0
instead of increasing monotonically) and leaves the other four counters
unchanged. -/
theorem C9_counters_increment_mod256 :
    ∀ (ts : Nat) (p : app_vars_t × app_dbg_t),
      ((cb_startFrame ts p).1.2.num_startFrame = (p.2.num_startFrame + 1) % 256 ∧
        (cb_startFrame ts p).1.2.num_endFrame = p.2.num_endFrame ∧
        (cb_startFrame ts p).1.2.num_timer = p.2.num_timer ∧
        (cb_startFrame ts p).1.2.num_radioTimerOverflows = p.2.num_radioTimerOverflows ∧
        (cb_startFrame ts p).1.2.num_radioTimerCompare = p.2.num_radioTimerCompare)
      ∧ ((cb_endFrame ts p).1.2.num_endFrame = (p.2.num_endFrame + 1) % 256 ∧
        (cb_endFrame ts p).1.2.num_startFrame = p.2.num_startFrame ∧
        (cb_endFrame ts p).1.2.num_timer = p.2.num_timer ∧
        (cb_endFrame ts p).1.2.num_radioTimerOverflows = p.2.num_radioTimerOverflows ∧
        (cb_endFrame ts p).1.2.num_radioTimerCompare = p.2.num_radioTimerCompare)
      ∧ ((cb_timer p).1.2.num_timer = (p.2.num_timer + 1) % 256 ∧
        (cb_timer p).1.2.num_startFrame = p.2.num_startFrame ∧
        (cb_timer p).1.2.num_endFrame = p.2.num_endFrame ∧
        (cb_timer p).1.2.num_radioTimerOverflows = p.2.num_radioTimerOverflows ∧
        (cb_timer p).1.2.num_radioTimerCompare = p.2.num_radioTimerCompare)
      ∧ ((cb_radioTimerOverflows p).1.2.num_radioTimerOverflows =
          (p.2.num_radioTimerOverflows + 1) % 256 ∧
        (cb_radioTimerOverflows p).1.2.num_startFrame = p.2.num_startFrame ∧
        (cb_radioTimerOverflows p).1.2.num_endFrame = p.2.num_endFrame ∧
        (cb_radioTimerOverflows p).1.2.num_timer = p.2.num_timer ∧
        (cb_radioTimerOverflows p).1.2.num_radioTimerCompare = p.2.num_radioTimerCompare)
      ∧ ((cb_radioTimerCompare p).1.2.num_radioTimerCompare =
          (p.2.num_radioTimerCompare + 1) % 256 ∧
        (cb_radioTimerCompare p).1.2.num_startFrame = p.2.num_startFrame ∧
        (cb_radioTimerCompare p).1.2.num_endFrame = p.2.num_endFrame ∧
        (cb_radioTimerCompare p).1.2.num_timer = p.2.num_timer ∧
        (cb_radioTimerCompare p).1.2.num_radioTimerOverflows = p.2.num_radioTimerOverflows) :=
  fun ts p =>
    ⟨⟨rfl, rfl, rfl, rfl, rfl⟩, ⟨rfl, rfl, rfl, rfl, rfl⟩, ⟨rfl, rfl, rfl, rfl, rfl⟩,
      ⟨rfl, rfl, rfl, rfl, rfl⟩, ⟨rfl, rfl, rfl, rfl, rfl⟩⟩

/-- C10: if the declared buffer length equals the full capacity, one
dispatch pass leaves it at full capacity; the declared length after the
end-of-frame block does not depend on the received frame (the fetch returns
nothing into `packet_len`); and no notification callback touches
`packet_len`. -/
theorem C10_packet_len_capacity (rx : List Nat) (s : app_vars_t)
    (h : s.packet_len = LENGTH_PACKET) :
    (dispatchPass rx s).1.packet_len = LENGTH_PACKET
    ∧ (∀ rx1 rx2 : List Nat,
        (stepEndFrame rx1 s).1.packet_len = (stepEndFrame rx2 s).1.packet_len)
    ∧ (∀ (ts : Nat) (p : app_vars_t × app_dbg_t),
        (cb_startFrame ts p).1.1.packet_len = p.1.packet_len ∧
        (cb_endFrame ts p).1.1.packet_len = p.1.packet_len)
    ∧ (∀ p : app_vars_t × app_dbg_t,
        (cb_timer p).1.1.packet_len = p.1.packet_len) := by
  obtain ⟨f, st, pkt, plen, a, b, c⟩ := s
  simp only at h
  subst h
  have eSE : ∀ g : Nat,
      clearFlag g APP_FLAG_START_FRAME &&& APP_FLAG_END_FRAME = g &&& APP_FLAG_END_FRAME :=
    fun g => clearFlag_and_other (by decide)
  have eST : ∀ g : Nat,
      clearFlag g APP_FLAG_START_FRAME &&& APP_FLAG_TIMER = g &&& APP_FLAG_TIMER :=
    fun g => clearFlag_and_other (by decide)
  have eET : ∀ g : Nat,
      clearFlag g APP_FLAG_END_FRAME &&& APP_FLAG_TIMER = g &&& APP_FLAG_TIMER :=
    fun g => clearFlag_and_other (by decide)
  refine ⟨?_, ?_, fun ts p => ⟨rfl, rfl⟩, fun p => rfl⟩
  · by_cases h1 : f &&& APP_FLAG_START_FRAME = 0 <;>
      by_cases h2 : f &&& APP_FLAG_END_FRAME = 0 <;>
      by_cases h4 : f &&& APP_FLAG_TIMER = 0 <;>
      cases st <;>
      simp [dispatchPass, stepStartFrame, stepEndFrame, stepTimer,
        eSE, eST, eET, h1, h2, h4]
  · intro rx1 rx2
    by_cases h2 : f &&& APP_FLAG_END_FRAME = 0 <;>
      cases st <;>
      simp [stepEndFrame, h2]

/-- Witness for C10 at the concrete state `c10s` (all three flags set,
declared length at capacity): the pass keeps the declared length at
capacity. -/
theorem C10_witness :
    (dispatchPass [] c10s).1.packet_len = LENGTH_PACKET :=
  (C10_packet_len_capacity [] c10s rfl).1

/-- C3: the claim says every raised flag is checked, handled and its bit
cleared before the loop returns to the idle wait.  The source drops that
promise for TIMER while RECEIVING: the pass enters the TIMER handler and
hangs in the fill loop before the clear at line 214
(`app_vars.flags &= ~APP_FLAG_TIMER`) — after every number of fill-loop
iterations the flag word still equals the entry flag word (any set bits,
including APP_FLAG_TIMER, are still set and never handled to completion) and
the loop guard still holds, so the pass never finishes and the loop never
returns to the idle wait. -/
theorem C3_timer_flag_never_cleared :
    ∀ (s : app_vars_t) (n : Nat),
      (timerRxFill s n).2.flags = s.flags ∧
      (timerRxFill s n).1 < (timerRxFill s n).2.packet_len := by
  intro s n
  refine ⟨timerRxFill_flags s n, ?_⟩
  rw [timerRxFill_fst, timerRxFill_packet_len]
  simp only [LENGTH_PACKET, LENGTH_CRC]
  omega

end BspRadio
